import Mathlib

/-!
# Verification of the NNStreamer single-shot invocation bridge

A shallow embedding of `api/capi/src/nnstreamer-capi-single.c` (the
single-shot inference C-API: `ml_single_open`, `ml_single_close`,
`ml_single_invoke`, `ml_single_get_input_info` / `ml_single_get_output_info`,
`ml_single_set_timeout`), together with theorems checking the design
document's statements about it.

Modelling conventions:
* Machine integers become `Nat` (no arithmetic in this component overflows:
  counts are bounded by 16, ranks by 4, and sizes/timeouts are only compared
  and multiplied).
* C strings become `List Nat` (byte strings), so that the ASCII lowercasing
  done by `g_ascii_strdown` is byte-exact.
* The GStreamer engine (appsrc / tensor_filter / appsink) is an external
  collaborator.  It is modelled operationally: the appsink is a capacity-1
  drop-oldest mailbox, frames pushed into the appsrc travel through a FIFO
  of in-flight frames, and the nondeterminism of the asynchronous engine
  (push success, whether a frame arrives within the bounded wait) is an
  explicit schedule parameter.  Each engine call the bridge performs is
  recorded in a trace, so "which GStreamer function was called" (the
  blocking `gst_app_sink_pull_sample` versus the bounded
  `gst_app_sink_try_pull_sample`) is an observable of the embedding.
* A frame's payload is identified by a provenance tag (`Nat`): pushing an
  input data buffer with tag `t` produces a frame tagged `t`, and the
  `memcpy` loop that copies a pulled sample into the freshly allocated
  output buffer stamps the output with the sample's tag.  "The result
  corresponds to its own pushed input" is then an equality of tags.
* The embedding models the `ML_SINGLE_SUPPORT_TIMEOUT` build
  (GStreamer >= 1.10), which is the configuration the design document
  describes (bounded waits, timed-out error, stale-result recovery).

Functions of this repository that the C file calls but whose definitions
live outside the embedded sources (the C-API utility file and the GLib /
GStreamer libraries) are modelled from the design document's words; each
such definition carries a doc comment starting with `Modelled from the
spec:`.
-/

namespace NNStreamer

/-- Error codes of the C-API (`ml_error_e` in `nnstreamer.h`). -/
inductive MLError where
  | ML_ERROR_NONE
  | ML_ERROR_INVALID_PARAMETER
  | ML_ERROR_STREAMS_PIPE
  | ML_ERROR_TRY_AGAIN
  | ML_ERROR_UNKNOWN
  | ML_ERROR_TIMED_OUT
  | ML_ERROR_NOT_SUPPORTED
  deriving DecidableEq, Repr

/-- Tensor element types (`ml_tensor_type_e` in `nnstreamer.h`). -/
inductive MLTensorType where
  | ML_TENSOR_TYPE_INT32
  | ML_TENSOR_TYPE_UINT32
  | ML_TENSOR_TYPE_INT16
  | ML_TENSOR_TYPE_UINT16
  | ML_TENSOR_TYPE_INT8
  | ML_TENSOR_TYPE_UINT8
  | ML_TENSOR_TYPE_FLOAT64
  | ML_TENSOR_TYPE_FLOAT32
  | ML_TENSOR_TYPE_INT64
  | ML_TENSOR_TYPE_UINT64
  | ML_TENSOR_TYPE_UNKNOWN
  deriving DecidableEq, Repr

/-- `ML_TENSOR_RANK_LIMIT` in `nnstreamer.h`. -/
def ML_TENSOR_RANK_LIMIT : Nat := 4

/-- `ML_TENSOR_SIZE_LIMIT` in `nnstreamer.h`. -/
def ML_TENSOR_SIZE_LIMIT : Nat := 16

/-- Modelled from the spec: the element width in bytes of each tensor
element type ("fixed-width, closed set" of "signed/unsigned integers of
8/16/32/64 bits, floating point 32/64 bits, or unknown"); the computing
function (`ml_tensor_info_get_size` in the C-API utility file) is not among
the embedded sources. -/
def ml_tensor_type_byte_width : MLTensorType → Nat
  | .ML_TENSOR_TYPE_INT32 => 4
  | .ML_TENSOR_TYPE_UINT32 => 4
  | .ML_TENSOR_TYPE_INT16 => 2
  | .ML_TENSOR_TYPE_UINT16 => 2
  | .ML_TENSOR_TYPE_INT8 => 1
  | .ML_TENSOR_TYPE_UINT8 => 1
  | .ML_TENSOR_TYPE_FLOAT64 => 8
  | .ML_TENSOR_TYPE_FLOAT32 => 4
  | .ML_TENSOR_TYPE_INT64 => 8
  | .ML_TENSOR_TYPE_UINT64 => 8
  | .ML_TENSOR_TYPE_UNKNOWN => 0

/-- One tensor's metadata (`ml_tensor_info_s` in `nnstreamer.h`): optional
name, element type, dimension vector.  The C struct carries a fixed array
of `ML_TENSOR_RANK_LIMIT` dimensions; the embedding keeps the dimension
vector as a list (its length is the rank). -/
structure MlTensorInfo where
  name : Option String
  type : MLTensorType
  dimension : List Nat
  deriving DecidableEq, Repr

/-- A set of tensors' metadata (`ml_tensors_info_s` in `nnstreamer.h`).
`num_tensors` of the C struct is the length of `info`. -/
structure MlTensorsInfo where
  info : List MlTensorInfo
  deriving DecidableEq, Repr

/-- Modelled from the spec: `ml_tensors_info_validate` (C-API utility file,
not among the embedded sources).  "Invariant: count <= N; every active
entry has rank >= 1 and every dimension >= 1; type != unknown for a
descriptor to be valid." -/
def ml_tensors_info_validate (i : MlTensorsInfo) : Bool :=
  i.info.length ≤ ML_TENSOR_SIZE_LIMIT &&
  i.info.all fun t =>
    t.type ≠ MLTensorType.ML_TENSOR_TYPE_UNKNOWN &&
    1 ≤ t.dimension.length && t.dimension.length ≤ ML_TENSOR_RANK_LIMIT &&
    t.dimension.all (1 ≤ ·)

/-- Modelled from the spec: `ml_tensor_info_get_size` (C-API utility file,
not among the embedded sources): a descriptor entry's "computed byte size
(product of dimensions x element width)". -/
def ml_tensor_info_get_size (t : MlTensorInfo) : Nat :=
  (t.dimension.foldl (· * ·) 1) * ml_tensor_type_byte_width t.type

/-- One raw memory block of a data buffer (`ml_tensor_data_s` in
`nnstreamer.h`).  `tensor` models whether the C data pointer is non-null;
`size` is the block's byte length. -/
structure MlTensorData where
  tensor : Bool
  size : Nat
  deriving DecidableEq, Repr

/-- A data buffer (`ml_tensors_data_s` in `nnstreamer.h`): the ordered
blocks plus a provenance tag identifying the bytes held in the blocks
(see the module header: tags stand for payload identity, so that "this
output was copied from the frame produced by that input" is expressible). -/
structure MlTensorsData where
  tensors : List MlTensorData
  tag : Nat
  deriving DecidableEq, Repr

/-- Modelled from the spec: `ml_tensors_data_create` (C-API utility file,
not among the embedded sources): "allocate a fresh Data Buffer sized per
the negotiated output descriptor" — one non-null block per descriptor
entry, each of the entry's computed byte size. -/
def ml_tensors_data_create (i : MlTensorsInfo) : MlTensorsData :=
  { tensors := i.info.map fun t => { tensor := true, size := ml_tensor_info_get_size t },
    tag := 0 }

/-- `ML_SINGLE_MAGIC` in `nnstreamer-capi-single.c`. -/
def ML_SINGLE_MAGIC : Nat := 0xfeedfeed

/-- `SINGLE_DEFAULT_TIMEOUT` in `nnstreamer-capi-single.c` (milliseconds). -/
def SINGLE_DEFAULT_TIMEOUT : Nat := 3000

/-- `GST_MSECOND`: one millisecond in GStreamer clock-time units
(nanoseconds). -/
def GST_MSECOND : Nat := 1000000

/-- Modelled from the spec: the `tensor_filter` stage element as the bridge
sees it through `getStageProperty` — "introspect the inference stage for
self-reported dimension/type/name strings, parse them into a Tensor-Set
Descriptor".  The property read-out plus the parse
(`gst_tensors_info_parse_dimensions_string` and friends, outside the
embedded sources) is collapsed into the descriptor it yields, one per
direction. -/
structure FilterElement where
  reported_in : MlTensorsInfo
  reported_out : MlTensorsInfo
  deriving DecidableEq, Repr

/-- `ml_single_get_tensors_info_from_filter`: read the filter element's
per-direction dimension/type/name properties and parse them into a fresh
descriptor (the read-out plus parse is the `FilterElement` abstraction). -/
def ml_single_get_tensors_info_from_filter (filter : FilterElement)
    (is_input : Bool) : MlTensorsInfo :=
  if is_input then filter.reported_in else filter.reported_out

/-- The engine-side state of one single-shot pipeline: `inflight` is the
FIFO of provenance tags of frames pushed into the appsrc that have not yet
reached the appsink; `sinkbuf` is the appsink's buffered frame (capacity 1
with drop-oldest, as configured by `ml_single_open`). -/
structure EngineState where
  inflight : List Nat
  sinkbuf : Option Nat
  deriving DecidableEq, Repr

/-- One frame travels from the in-flight FIFO into the appsink mailbox;
with the drop-oldest policy a new arrival replaces an unconsumed older
frame. -/
def engineArriveOne (e : EngineState) : EngineState :=
  match e.inflight with
  | [] => e
  | f :: rest => { inflight := rest, sinkbuf := some f }

/-- Environment steps between bridge operations: some number of in-flight
frames arrive at the appsink. -/
def engineSettle (e : EngineState) : Nat → EngineState
  | 0 => e
  | n + 1 => engineSettle (engineArriveOne e) n

/-- The engine calls `ml_single_invoke` performs, in order.
`pullSample` is the blocking `gst_app_sink_pull_sample` (no timeout);
`tryPullSample t` is `gst_app_sink_try_pull_sample` with a bound of `t`
nanoseconds; `pushBuffer t` is `gst_app_src_push_buffer` of the frame
built from the input tagged `t`. -/
inductive EngineOp where
  | pullSample
  | tryPullSample (timeoutNs : Nat)
  | pushBuffer (tag : Nat)
  deriving DecidableEq, Repr

/-- The handle state (`ml_single` struct in `nnstreamer-capi-single.c`).
The per-handle mutex is not part of the sequential state; `filter` stands
for the `GstElement *filter` reference (its observable content being its
self-reported descriptors). -/
structure MlSingle where
  magic : Nat
  in_info : MlTensorsInfo
  out_info : MlTensorsInfo
  clear_previous_buffer : Bool
  timeout : Nat
  filter : FilterElement
  deriving DecidableEq, Repr

/-- The engine's nondeterministic choices during one `ml_single_invoke`
call: whether `gst_app_src_push_buffer` returns `GST_FLOW_OK`, and whether
the in-flight frame reaches the appsink within the bounded wait of
`gst_app_sink_try_pull_sample`. -/
structure InvokeSched where
  pushOk : Bool
  waitArrives : Bool
  deriving DecidableEq, Repr

/-- What one terminating `ml_single_invoke` call leaves behind: the status
it returns, the output buffer it stored through the out-parameter (`none`
models a null `*output`), and the handle / engine states on return. -/
structure InvokeResult where
  status : MLError
  output : Option MlTensorsData
  handle : MlSingle
  engine : EngineState
  deriving DecidableEq, Repr

/-- The input-validation loop of `ml_single_invoke` (lines 525-533): every
block must have a non-null data pointer and byte length equal to the
negotiated input descriptor entry's computed size.  (The count equality is
checked separately, just before.) -/
def ml_single_input_blocks_valid (in_info : MlTensorsInfo) (d : MlTensorsData) : Bool :=
  (d.tensors.zip in_info.info).all fun p =>
    p.1.tensor && p.1.size == ml_tensor_info_get_size p.2

/-- Lines 550-613 of `ml_single_invoke`: build and push the input frame,
wait (bounded) for the output frame, allocate and fill the output buffer.
`h` and `e` are the handle / engine states after the stale-buffer cleanup
step, `tr` the trace accumulated by that step. -/
def ml_single_invoke_after_clear (h : MlSingle) (e : EngineState) (input : MlTensorsData)
    (sched : InvokeSched) (tr : List EngineOp) : List EngineOp × Option InvokeResult :=
  let tr1 := tr ++ [EngineOp.pushBuffer input.tag]
  if sched.pushOk = false then
    (tr1, some ⟨MLError.ML_ERROR_STREAMS_PIPE, none, h, e⟩)
  else
    let e1 : EngineState := { e with inflight := e.inflight ++ [input.tag] }
    let tr2 := tr1 ++ [EngineOp.tryPullSample (GST_MSECOND * h.timeout)]
    match e1.sinkbuf with
    | some f =>
        (tr2, some ⟨MLError.ML_ERROR_NONE,
          some { ml_tensors_data_create h.out_info with tag := f },
          h, { e1 with sinkbuf := none }⟩)
    | none =>
        match e1.inflight, sched.waitArrives with
        | f :: rest, true =>
            (tr2, some ⟨MLError.ML_ERROR_NONE,
              some { ml_tensors_data_create h.out_info with tag := f },
              h, ⟨rest, none⟩⟩)
        | _, _ =>
            (tr2, some ⟨MLError.ML_ERROR_TIMED_OUT, none,
              { h with clear_previous_buffer := true }, e1⟩)

/-- `ml_single_invoke` (the `ML_SINGLE_SUPPORT_TIMEOUT` build).  Returns
the trace of engine calls performed, and `some` result if the call
terminates — `none` models the call blocking forever inside the cleanup
step's `gst_app_sink_pull_sample` when no frame is buffered or in flight. -/
def ml_single_invoke (h : MlSingle) (e : EngineState) (input : MlTensorsData)
    (sched : InvokeSched) : List EngineOp × Option InvokeResult :=
  if h.magic ≠ ML_SINGLE_MAGIC then
    ([], some ⟨MLError.ML_ERROR_INVALID_PARAMETER, none, h, e⟩)
  else if input.tensors.length ≠ h.in_info.info.length then
    ([], some ⟨MLError.ML_ERROR_INVALID_PARAMETER, none, h, e⟩)
  else if ml_single_input_blocks_valid h.in_info input = false then
    ([], some ⟨MLError.ML_ERROR_INVALID_PARAMETER, none, h, e⟩)
  else if h.clear_previous_buffer then
    match e.sinkbuf with
    | some _ =>
        ml_single_invoke_after_clear { h with clear_previous_buffer := false }
          { e with sinkbuf := none } input sched [EngineOp.pullSample]
    | none =>
        match e.inflight with
        | _ :: rest =>
            ml_single_invoke_after_clear { h with clear_previous_buffer := false }
              ⟨rest, none⟩ input sched [EngineOp.pullSample]
        | [] => ([EngineOp.pullSample], none)
  else
    ml_single_invoke_after_clear h e input sched []

/-- The framework hints accepted by `ml_single_open` (`ml_nnfw_type_e`). -/
inductive MlNnfwType where
  | ML_NNFW_TYPE_ANY
  | ML_NNFW_TYPE_CUSTOM_FILTER
  | ML_NNFW_TYPE_TENSORFLOW_LITE
  | ML_NNFW_TYPE_TENSORFLOW
  | ML_NNFW_TYPE_NNFW
  deriving DecidableEq, Repr

/-- The bytes of an ASCII string literal, for writing model paths and
extensions. -/
def bytes (s : String) : List Nat := s.data.map Char.toNat

/-- `g_ascii_tolower`: lowercase one ASCII byte, leaving every other byte
unchanged. -/
def g_ascii_tolower (c : Nat) : Nat :=
  if 65 ≤ c ∧ c ≤ 90 then c + 32 else c

/-- `g_ascii_strdown`: lowercase the ASCII letters of a byte string,
leaving every other byte unchanged. -/
def g_ascii_strdown (s : List Nat) : List Nat :=
  s.map g_ascii_tolower

/-- `g_str_has_suffix str suffix`. -/
def g_str_has_suffix (s suffix : List Nat) : Bool :=
  suffix.isSuffixOf s

/-- `NNSTREAMER_SO_FILE_EXTENSION`: the shared-library extension used for
custom-filter models (".so" throughout this repository's sub-plugin
handling). -/
def NNSTREAMER_SO_FILE_EXTENSION : List Nat := bytes ".so"

/-- Lines 217-266 of `ml_single_open` ("1. Determine nnfw"): lowercase the
model path, then switch on the hint, inferring the framework from the
extension for `ML_NNFW_TYPE_ANY` and checking extension/hint agreement for
an explicit hint.  Returns the status and the resolved framework. -/
def ml_single_resolve_nnfw (nnfw : MlNnfwType) (model : List Nat) :
    MLError × MlNnfwType :=
  let path_down := g_ascii_strdown model
  match nnfw with
  | .ML_NNFW_TYPE_ANY =>
      if g_str_has_suffix path_down (bytes ".tflite") then
        (MLError.ML_ERROR_NONE, .ML_NNFW_TYPE_TENSORFLOW_LITE)
      else if g_str_has_suffix path_down (bytes ".pb") then
        (MLError.ML_ERROR_NONE, .ML_NNFW_TYPE_TENSORFLOW)
      else if g_str_has_suffix path_down NNSTREAMER_SO_FILE_EXTENSION then
        (MLError.ML_ERROR_NONE, .ML_NNFW_TYPE_CUSTOM_FILTER)
      else
        (MLError.ML_ERROR_INVALID_PARAMETER, nnfw)
  | .ML_NNFW_TYPE_CUSTOM_FILTER =>
      if g_str_has_suffix path_down NNSTREAMER_SO_FILE_EXTENSION then
        (MLError.ML_ERROR_NONE, nnfw)
      else (MLError.ML_ERROR_INVALID_PARAMETER, nnfw)
  | .ML_NNFW_TYPE_TENSORFLOW_LITE =>
      if g_str_has_suffix path_down (bytes ".tflite") then
        (MLError.ML_ERROR_NONE, nnfw)
      else (MLError.ML_ERROR_INVALID_PARAMETER, nnfw)
  | .ML_NNFW_TYPE_TENSORFLOW =>
      if g_str_has_suffix path_down (bytes ".pb") then
        (MLError.ML_ERROR_NONE, nnfw)
      else (MLError.ML_ERROR_INVALID_PARAMETER, nnfw)
  | .ML_NNFW_TYPE_NNFW =>
      (MLError.ML_ERROR_NOT_SUPPORTED, nnfw)

/-- The external collaborators' behavior during one `ml_single_open` call:
whether `gst_init_check` succeeds, whether the model path is a regular
file (`g_file_test`), what `ml_check_nnfw_availability` reports (status
and availability — modelled from the spec: `checkAvailable(backend,
hardwareHint)`; its definition is not among the embedded sources), the
status of `ml_pipeline_construct` and `ml_pipeline_start`, and the
instantiated filter element. -/
structure OpenEnv where
  gst_init_ok : Bool
  file_is_regular : Bool
  availability_status : MLError
  available : Bool
  construct_status : MLError
  filter : FilterElement
  start_status : MLError
  deriving DecidableEq, Repr

/-- Resource accounting for `ml_single_open` / `ml_single_close`: how many
pipelines were constructed/destroyed, stage references
(appsrc/appsink/filter from `gst_bin_get_by_name`) taken/released, and
handle allocations freed.  Open is leak-free on failure iff each acquired
count equals its released count. -/
structure Ledger where
  pipelines_constructed : Nat
  pipelines_destroyed : Nat
  stage_refs_taken : Nat
  stage_refs_released : Nat
  handles_allocated : Nat
  handles_freed : Nat
  deriving DecidableEq, Repr

/-- A ledger with no acquisitions (failure before any resource is built). -/
def emptyLedger : Ledger := ⟨0, 0, 0, 0, 0, 0⟩

/-- The ledger after the error path of `ml_single_open` has run
`ml_single_close` on the partially built handle: the pipeline was
constructed and destroyed, the three stage references taken and released,
the handle allocated and freed. -/
def ledgerAfterClose : Ledger := ⟨1, 1, 3, 3, 1, 1⟩

/-- The ledger of a successful open: pipeline, three stage references and
the handle are live (owned by the returned handle). -/
def ledgerOpenSuccess : Ledger := ⟨1, 0, 3, 0, 1, 0⟩

/-- Graph-level actions `ml_single_open` performs, for stating "no graph
was instantiated" and which framework the pipeline description named. -/
inductive OpenOp where
  | constructPipeline (nnfw : MlNnfwType)
  | startPipeline
  deriving DecidableEq, Repr

/-- Steps 3-6 of `ml_single_open` (lines 344-436) for a framework whose
pipeline description was assembled: construct the pipeline, take the stage
references, allocate the handle, set in/out caps and metadata (adopting a
supplied descriptor verbatim, otherwise introspecting the filter and
validating the parse), configure the appsink (depth 1, drop oldest),
start, and on any failure tear everything down via `ml_single_close`. -/
def ml_single_open_construct (input_info output_info : Option MlTensorsInfo)
    (nnfw : MlNnfwType) (env : OpenEnv) :
    MLError × Option MlSingle × Ledger × List OpenOp :=
  if env.construct_status ≠ MLError.ML_ERROR_NONE then
    (env.construct_status, none, emptyLedger, [OpenOp.constructPipeline nnfw])
  else
    let single_h0 : MlSingle :=
      { magic := ML_SINGLE_MAGIC, in_info := ⟨[]⟩, out_info := ⟨[]⟩,
        clear_previous_buffer := false, timeout := SINGLE_DEFAULT_TIMEOUT,
        filter := env.filter }
    let step_in : Bool × MlSingle :=
      match input_info with
      | some i => (true, { single_h0 with in_info := i })
      | none =>
          let derived := ml_single_get_tensors_info_from_filter env.filter true
          (ml_tensors_info_validate derived, { single_h0 with in_info := derived })
    if step_in.1 = false then
      (MLError.ML_ERROR_INVALID_PARAMETER, none, ledgerAfterClose,
        [OpenOp.constructPipeline nnfw])
    else
      let step_out : Bool × MlSingle :=
        match output_info with
        | some i => (true, { step_in.2 with out_info := i })
        | none =>
            let derived := ml_single_get_tensors_info_from_filter env.filter false
            (ml_tensors_info_validate derived, { step_in.2 with out_info := derived })
      if step_out.1 = false then
        (MLError.ML_ERROR_INVALID_PARAMETER, none, ledgerAfterClose,
          [OpenOp.constructPipeline nnfw])
      else if env.start_status ≠ MLError.ML_ERROR_NONE then
        (env.start_status, none, ledgerAfterClose,
          [OpenOp.constructPipeline nnfw, OpenOp.startPipeline])
      else
        (MLError.ML_ERROR_NONE, some step_out.2, ledgerOpenSuccess,
          [OpenOp.constructPipeline nnfw, OpenOp.startPipeline])

/-- `ml_single_open`: parameter validation, framework resolution,
availability check, pipeline-description assembly (the tensorflow branch
demanding both explicit descriptors), then construction and start.  The
caller's handle out-parameter is the second component (`none` models a
null `*single`). -/
def ml_single_open (model : Option (List Nat))
    (input_info output_info : Option MlTensorsInfo)
    (nnfw : MlNnfwType) (env : OpenEnv) :
    MLError × Option MlSingle × Ledger × List OpenOp :=
  if env.gst_init_ok = false then
    (MLError.ML_ERROR_STREAMS_PIPE, none, emptyLedger, [])
  else if (match input_info with
           | some i => ml_tensors_info_validate i == false
           | none => false) then
    (MLError.ML_ERROR_INVALID_PARAMETER, none, emptyLedger, [])
  else if (match output_info with
           | some i => ml_tensors_info_validate i == false
           | none => false) then
    (MLError.ML_ERROR_INVALID_PARAMETER, none, emptyLedger, [])
  else
    match model with
    | none => (MLError.ML_ERROR_INVALID_PARAMETER, none, emptyLedger, [])
    | some m =>
      if env.file_is_regular = false then
        (MLError.ML_ERROR_INVALID_PARAMETER, none, emptyLedger, [])
      else
        let resolved := ml_single_resolve_nnfw nnfw m
        if resolved.1 ≠ MLError.ML_ERROR_NONE then
          (resolved.1, none, emptyLedger, [])
        else if env.availability_status ≠ MLError.ML_ERROR_NONE then
          (env.availability_status, none, emptyLedger, [])
        else if env.available = false then
          (MLError.ML_ERROR_NOT_SUPPORTED, none, emptyLedger, [])
        else
          match resolved.2 with
          | .ML_NNFW_TYPE_CUSTOM_FILTER =>
              ml_single_open_construct input_info output_info resolved.2 env
          | .ML_NNFW_TYPE_TENSORFLOW_LITE =>
              ml_single_open_construct input_info output_info resolved.2 env
          | .ML_NNFW_TYPE_TENSORFLOW =>
              match input_info, output_info with
              | some _, some _ =>
                  ml_single_open_construct input_info output_info resolved.2 env
              | _, _ =>
                  (MLError.ML_ERROR_INVALID_PARAMETER, none, emptyLedger, [])
          | _ => (MLError.ML_ERROR_NOT_SUPPORTED, none, emptyLedger, [])

/-- `ml_single_set_timeout` (the `ML_SINGLE_SUPPORT_TIMEOUT` build). -/
def ml_single_set_timeout (h : MlSingle) (timeout : Nat) : MLError × MlSingle :=
  if timeout = 0 then (MLError.ML_ERROR_INVALID_PARAMETER, h)
  else if h.magic ≠ ML_SINGLE_MAGIC then (MLError.ML_ERROR_INVALID_PARAMETER, h)
  else (MLError.ML_ERROR_NONE, { h with timeout := timeout })

/-- `ml_single_get_tensors_info`: magic check, then a fresh descriptor
obtained from the filter element's current properties. -/
def ml_single_get_tensors_info (h : MlSingle) (is_input : Bool) :
    MLError × Option MlTensorsInfo :=
  if h.magic ≠ ML_SINGLE_MAGIC then (MLError.ML_ERROR_INVALID_PARAMETER, none)
  else (MLError.ML_ERROR_NONE, some (ml_single_get_tensors_info_from_filter h.filter is_input))

/-- `ml_single_get_input_info`. -/
def ml_single_get_input_info (h : MlSingle) : MLError × Option MlTensorsInfo :=
  ml_single_get_tensors_info h true

/-- `ml_single_get_output_info`. -/
def ml_single_get_output_info (h : MlSingle) : MLError × Option MlTensorsInfo :=
  ml_single_get_tensors_info h false

/-- How many frames the engine currently holds for a handle (in flight plus
buffered at the appsink). -/
def engineFrames (e : EngineState) : Nat :=
  e.inflight.length + (match e.sinkbuf with | some _ => 1 | none => 0)

/-- The protocol invariant between bridge calls on one handle: exactly one
leftover frame when the stale flag is set (the frame pushed by the
timed-out invoke), none otherwise.  This is the design document's "at most
one frame is ever in flight per handle between consecutive invoke calls"
made precise. -/
def InvokeInv (h : MlSingle) (e : EngineState) : Prop :=
  engineFrames e = (if h.clear_previous_buffer then 1 else 0)

/-- The scenario input descriptor: one uint8 tensor of dimensions
[1,28,28,1] (784 bytes). -/
def exampleInInfo : MlTensorsInfo :=
  ⟨[{ name := none, type := MLTensorType.ML_TENSOR_TYPE_UINT8,
      dimension := [1, 28, 28, 1] }]⟩

/-- The scenario output descriptor: one float32 tensor of dimensions
[1,10] (40 bytes). -/
def exampleOutInfo : MlTensorsInfo :=
  ⟨[{ name := none, type := MLTensorType.ML_TENSOR_TYPE_FLOAT32,
      dimension := [1, 10] }]⟩

/-- A self-description the instantiated filter element can report for its
input: same element count and byte size as `exampleInInfo`, but with the
rank-4 padding the element prints and a tensor name — a different
descriptor value than the caller supplied. -/
def exampleReportedInInfo : MlTensorsInfo :=
  ⟨[{ name := some "tensor0", type := MLTensorType.ML_TENSOR_TYPE_UINT8,
      dimension := [28, 28, 1, 1] }]⟩

/-- A filter element whose self-reported input descriptor differs from the
caller-supplied one. -/
def exampleFilter : FilterElement := ⟨exampleReportedInInfo, exampleOutInfo⟩

/-- A live handle as produced by a successful open with the scenario
descriptors. -/
def exampleHandle : MlSingle :=
  { magic := ML_SINGLE_MAGIC, in_info := exampleInInfo, out_info := exampleOutInfo,
    clear_previous_buffer := false, timeout := SINGLE_DEFAULT_TIMEOUT,
    filter := exampleFilter }

/-- A compatible input buffer (one non-null 784-byte block) with the given
provenance tag. -/
def exampleInput (tag : Nat) : MlTensorsData := ⟨[⟨true, 784⟩], tag⟩

/-- The scenario's bad input: a single block one byte short of 28*28*1. -/
def exampleShortInput : MlTensorsData := ⟨[⟨true, 783⟩], 5⟩

/-- An environment in which every external collaborator succeeds. -/
def exampleEnv : OpenEnv :=
  ⟨true, true, MLError.ML_ERROR_NONE, true, MLError.ML_ERROR_NONE,
   exampleFilter, MLError.ML_ERROR_NONE⟩

/-- The scenario open call: explicit input descriptor {uint8, [1,28,28,1]}
and output descriptor {float32, [1,10]} against a self-describing
(tensorflow-lite) backend. -/
def exampleOpen : MLError × Option MlSingle × Ledger × List OpenOp :=
  ml_single_open (some (bytes "m.tflite")) (some exampleInInfo)
    (some exampleOutInfo) MlNnfwType.ML_NNFW_TYPE_TENSORFLOW_LITE exampleEnv

/-- The scenario handle right after a timed-out invoke: stale flag set. -/
def exampleFlaggedHandle : MlSingle :=
  { exampleHandle with clear_previous_buffer := true }

/-- The handle/engine/output left by a timed-out invoke of
`exampleInput 1` on `exampleHandle` with an idle engine. -/
def exampleTimedOutResult : InvokeResult :=
  ⟨MLError.ML_ERROR_TIMED_OUT, none, exampleFlaggedHandle, ⟨[1], none⟩⟩

/-- An environment in which everything succeeds except starting the
pipeline. -/
def exampleFailEnv : OpenEnv :=
  { exampleEnv with start_status := MLError.ML_ERROR_STREAMS_PIPE }

/-! ## Helper lemmas -/

theorem g_ascii_tolower_idem (c : Nat) :
    g_ascii_tolower (g_ascii_tolower c) = g_ascii_tolower c := by
  unfold g_ascii_tolower
  split_ifs <;> omega

theorem g_ascii_strdown_idem (s : List Nat) :
    g_ascii_strdown (g_ascii_strdown s) = g_ascii_strdown s := by
  unfold g_ascii_strdown
  rw [List.map_map]
  exact List.map_congr_left fun c _ => g_ascii_tolower_idem c

/-- A nonempty suffix determines the last byte of the whole string. -/
theorem g_str_has_suffix_getLast {s m : List Nat}
    (h : g_str_has_suffix m s = true) (hs : s ≠ []) :
    m.getLast? = s.getLast? := by
  unfold g_str_has_suffix at h
  obtain ⟨t, rfl⟩ := List.isSuffixOf_iff_suffix.mp h
  exact List.getLast?_append_of_ne_nil t hs

/-- Two nonempty candidate extensions with different last bytes cannot
both be suffixes of the same path. -/
theorem g_str_has_suffix_disjoint {s1 s2 m : List Nat}
    (h1 : g_str_has_suffix m s1 = true) (hn1 : s1 ≠ []) (hn2 : s2 ≠ [])
    (hne : s1.getLast? ≠ s2.getLast?) :
    g_str_has_suffix m s2 = false := by
  cases hb : g_str_has_suffix m s2 with
  | false => rfl
  | true =>
      exact absurd ((g_str_has_suffix_getLast h1 hn1).symm.trans
        (g_str_has_suffix_getLast hb hn2)) hne

/-- Full behavior of the push/wait/copy phase when the engine holds no
frame (the state every reachable invoke is in once the cleanup phase is
done): push failure, success with the just-pushed frame, or timeout. -/
theorem after_clear_empty (h : MlSingle) (input : MlTensorsData)
    (sched : InvokeSched) (tr : List EngineOp) :
    ml_single_invoke_after_clear h ⟨[], none⟩ input sched tr =
      if sched.pushOk = false then
        (tr ++ [EngineOp.pushBuffer input.tag],
         some ⟨MLError.ML_ERROR_STREAMS_PIPE, none, h, ⟨[], none⟩⟩)
      else if sched.waitArrives = true then
        (tr ++ [EngineOp.pushBuffer input.tag,
                EngineOp.tryPullSample (GST_MSECOND * h.timeout)],
         some ⟨MLError.ML_ERROR_NONE,
           some { ml_tensors_data_create h.out_info with tag := input.tag },
           h, ⟨[], none⟩⟩)
      else
        (tr ++ [EngineOp.pushBuffer input.tag,
                EngineOp.tryPullSample (GST_MSECOND * h.timeout)],
         some ⟨MLError.ML_ERROR_TIMED_OUT, none,
           { h with clear_previous_buffer := true }, ⟨[input.tag], none⟩⟩) := by
  rcases sched with ⟨po, wa⟩
  unfold ml_single_invoke_after_clear
  cases po <;> cases wa <;> simp

/-- The protocol invariant pins the engine down to one of three shapes. -/
theorem inv_engine_shape (h : MlSingle) (e : EngineState) (hinv : InvokeInv h e) :
    (h.clear_previous_buffer = false ∧ e = ⟨[], none⟩) ∨
    (h.clear_previous_buffer = true ∧
      ((∃ f, e = ⟨[f], none⟩) ∨ (∃ f, e = ⟨[], some f⟩))) := by
  unfold InvokeInv engineFrames at hinv
  rcases e with ⟨infl, sb⟩
  cases hcf : h.clear_previous_buffer <;> rw [hcf] at hinv <;>
    cases sb <;> simp at hinv
  · exact Or.inl ⟨rfl, by rw [hinv]⟩
  · rw [List.length_eq_one] at hinv
    obtain ⟨f, rfl⟩ := hinv
    exact Or.inr ⟨rfl, Or.inl ⟨f, rfl⟩⟩
  · subst hinv
    exact Or.inr ⟨rfl, Or.inr ⟨_, rfl⟩⟩

/-- Under the protocol invariant, a validated invoke reduces to the
push/wait/copy phase on an empty engine, with the stale flag cleared and
with exactly one blocking pull in the trace when the flag was set. -/
theorem invoke_valid_under_inv (h : MlSingle) (e : EngineState)
    (input : MlTensorsData) (sched : InvokeSched)
    (hm : h.magic = ML_SINGLE_MAGIC)
    (hc : input.tensors.length = h.in_info.info.length)
    (hb : ml_single_input_blocks_valid h.in_info input = true)
    (hinv : InvokeInv h e) :
    ml_single_invoke h e input sched =
      ml_single_invoke_after_clear { h with clear_previous_buffer := false }
        ⟨[], none⟩ input sched
        (if h.clear_previous_buffer then [EngineOp.pullSample] else []) := by
  rcases inv_engine_shape h e hinv with ⟨hcf, rfl⟩ | ⟨hcf, ⟨f, rfl⟩ | ⟨f, rfl⟩⟩
  · have heta : ({ h with clear_previous_buffer := false } : MlSingle) = h := by
      rcases h with ⟨m1, i1, o1, c1, t1, f1⟩
      simp_all
    rw [heta]
    unfold ml_single_invoke
    simp [hm, hc, hb, hcf]
  · unfold ml_single_invoke
    simp [hm, hc, hb, hcf]
  · unfold ml_single_invoke
    simp [hm, hc, hb, hcf]

/-- With at most one frame in the engine, an arrival step never drops a
frame, so the frame count is stable. -/
theorem arriveOne_frames (e : EngineState) (hle : engineFrames e ≤ 1) :
    engineFrames (engineArriveOne e) = engineFrames e := by
  rcases e with ⟨infl, sb⟩
  cases infl with
  | nil => rfl
  | cons f rest =>
      unfold engineFrames at hle
      unfold engineFrames engineArriveOne
      cases sb <;> simp_all

/-- Settling preserves the protocol invariant. -/
theorem settle_preserves_inv (h : MlSingle) (e : EngineState) (n : Nat)
    (hinv : InvokeInv h e) : InvokeInv h (engineSettle e n) := by
  induction n generalizing e with
  | zero => exact hinv
  | succ n ih =>
      unfold engineSettle
      apply ih
      unfold InvokeInv at *
      rw [arriveOne_frames e (by rw [hinv]; split <;> omega)]
      exact hinv

/-- The blocks allocated by `ml_tensors_data_create` match the descriptor:
same count, and per entry a non-null block of the computed byte size. -/
theorem data_create_blocks (i : MlTensorsInfo) :
    (ml_tensors_data_create i).tensors.length = i.info.length ∧
    ∀ p ∈ (ml_tensors_data_create i).tensors.zip i.info,
      p.1.size = ml_tensor_info_get_size p.2 ∧ p.1.tensor = true := by
  unfold ml_tensors_data_create
  refine ⟨by simp, ?_⟩
  rcases i with ⟨l⟩
  induction l with
  | nil => simp
  | cons a t ih =>
      intro p hp
      simp only [List.map_cons, List.zip_cons_cons, List.mem_cons] at hp
      rcases hp with rfl | hp
      · exact ⟨rfl, rfl⟩
      · exact ih p hp

/-- Every outcome of the push/wait/copy phase: either a success whose
output is the freshly allocated buffer (stamped with some frame's tag), or
a pipe/timeout error with no output. -/
theorem after_clear_outcomes (h : MlSingle) (e : EngineState)
    (input : MlTensorsData) (sched : InvokeSched) (tr : List EngineOp) :
    ∃ r, (ml_single_invoke_after_clear h e input sched tr).2 = some r ∧
      ((r.status = MLError.ML_ERROR_NONE ∧
         ∃ f, r.output = some { ml_tensors_data_create h.out_info with tag := f }) ∨
       ((r.status = MLError.ML_ERROR_STREAMS_PIPE ∨
         r.status = MLError.ML_ERROR_TIMED_OUT) ∧ r.output = none)) := by
  rcases sched with ⟨po, wa⟩
  rcases e with ⟨infl, sb⟩
  cases po
  · exact ⟨_, rfl, Or.inr ⟨Or.inl rfl, rfl⟩⟩
  · cases sb
    · cases infl with
      | nil =>
          cases wa
          · exact ⟨_, rfl, Or.inr ⟨Or.inr rfl, rfl⟩⟩
          · exact ⟨_, rfl, Or.inl ⟨rfl, _, rfl⟩⟩
      | cons g rest =>
          cases wa
          · exact ⟨_, rfl, Or.inr ⟨Or.inr rfl, rfl⟩⟩
          · exact ⟨_, rfl, Or.inl ⟨rfl, _, rfl⟩⟩
    · exact ⟨_, rfl, Or.inl ⟨rfl, _, rfl⟩⟩

/-- Every bounded wait `ml_single_invoke` ever performs uses the handle's
configured timeout (converted to nanoseconds). -/
theorem invoke_tryPull_timeout (h : MlSingle) (e : EngineState)
    (input : MlTensorsData) (sched : InvokeSched) (t : Nat)
    (hmem : EngineOp.tryPullSample t ∈ (ml_single_invoke h e input sched).1) :
    t = GST_MSECOND * h.timeout := by
  rcases sched with ⟨po, wa⟩
  rcases e with ⟨infl, sb⟩
  by_cases hm : h.magic = ML_SINGLE_MAGIC <;>
    by_cases hc : input.tensors.length = h.in_info.info.length <;>
    by_cases hb : ml_single_input_blocks_valid h.in_info input = true <;>
    cases hcf : h.clear_previous_buffer <;> cases po <;> cases wa <;>
    cases sb <;> cases infl <;>
    simp_all [ml_single_invoke, ml_single_invoke_after_clear] <;>
    (split at hmem <;> simp_all)

/-- Under the protocol invariant, any output a terminating invoke returns
is stamped with the tag of that same call's input — never with a stale
frame's tag. -/
theorem invoke_fresh_output (h : MlSingle) (e : EngineState)
    (input : MlTensorsData) (sched : InvokeSched) (tr : List EngineOp)
    (r : InvokeResult) (out : MlTensorsData)
    (hinv : InvokeInv h e)
    (heq : ml_single_invoke h e input sched = (tr, some r))
    (hout : r.output = some out) : out.tag = input.tag := by
  by_cases hm : h.magic = ML_SINGLE_MAGIC
  · by_cases hc : input.tensors.length = h.in_info.info.length
    · by_cases hb : ml_single_input_blocks_valid h.in_info input = true
      · rw [invoke_valid_under_inv h e input sched hm hc hb hinv,
          after_clear_empty] at heq
        split at heq
        · injection heq with h1 h2
          injection h2 with h3
          subst h3
          simp at hout
        · split at heq
          · injection heq with h1 h2
            injection h2 with h3
            subst h3
            simp only [Option.some.injEq] at hout
            subst hout
            rfl
          · injection heq with h1 h2
            injection h2 with h3
            subst h3
            simp at hout
      · rw [Bool.not_eq_true] at hb
        unfold ml_single_invoke at heq
        simp [hm, hc, hb] at heq
        obtain ⟨h1, h2⟩ := heq
        subst h2
        simp at hout
    · unfold ml_single_invoke at heq
      simp [hm, hc] at heq
      obtain ⟨h1, h2⟩ := heq
      subst h2
      simp at hout
  · unfold ml_single_invoke at heq
    simp [hm] at heq
    obtain ⟨h1, h2⟩ := heq
    subst h2
    simp at hout

/-! ## Claim theorems -/

/-- **C10.**  The file-extension matching performed by open's framework
resolution is case-insensitive: the model path is lowercased
(`g_ascii_strdown`) before every suffix comparison, so for every hint and
every path, resolution of the lowercased path is exactly resolution of
the path itself (hence '.TFLITE', '.Tflite', '.PB', ... behave as their
lowercase forms, both for inference with `ML_NNFW_TYPE_ANY` and for the
extension/hint mismatch checks). -/
theorem claim_C10_resolution_case_insensitive (nnfw : MlNnfwType) (m : List Nat) :
    ml_single_resolve_nnfw nnfw (g_ascii_strdown m) = ml_single_resolve_nnfw nnfw m := by
  unfold ml_single_resolve_nnfw
  rw [g_ascii_strdown_idem]

/-- **C8.**  Framework resolution in open is a fixed function of the
(hint, model-path-extension) pair: with no hint (`ML_NNFW_TYPE_ANY`), a
'.tflite' path resolves to the tensorflow-lite backend, a '.pb' path to
the tensorflow backend, a shared-library-extension path to the
custom-filter backend, and any other extension yields invalid-parameter;
with an explicit hint, a path whose extension does not match the hint's
expected extension yields invalid-parameter.  (Suffix tests are on the
lowercased path, per C10.) -/
theorem claim_C8_framework_resolution (m : List Nat) :
    (g_str_has_suffix (g_ascii_strdown m) (bytes ".tflite") = true →
      ml_single_resolve_nnfw MlNnfwType.ML_NNFW_TYPE_ANY m =
        (MLError.ML_ERROR_NONE, MlNnfwType.ML_NNFW_TYPE_TENSORFLOW_LITE)) ∧
    (g_str_has_suffix (g_ascii_strdown m) (bytes ".pb") = true →
      ml_single_resolve_nnfw MlNnfwType.ML_NNFW_TYPE_ANY m =
        (MLError.ML_ERROR_NONE, MlNnfwType.ML_NNFW_TYPE_TENSORFLOW)) ∧
    (g_str_has_suffix (g_ascii_strdown m) NNSTREAMER_SO_FILE_EXTENSION = true →
      ml_single_resolve_nnfw MlNnfwType.ML_NNFW_TYPE_ANY m =
        (MLError.ML_ERROR_NONE, MlNnfwType.ML_NNFW_TYPE_CUSTOM_FILTER)) ∧
    (g_str_has_suffix (g_ascii_strdown m) (bytes ".tflite") = false →
     g_str_has_suffix (g_ascii_strdown m) (bytes ".pb") = false →
     g_str_has_suffix (g_ascii_strdown m) NNSTREAMER_SO_FILE_EXTENSION = false →
      ml_single_resolve_nnfw MlNnfwType.ML_NNFW_TYPE_ANY m =
        (MLError.ML_ERROR_INVALID_PARAMETER, MlNnfwType.ML_NNFW_TYPE_ANY)) ∧
    (g_str_has_suffix (g_ascii_strdown m) NNSTREAMER_SO_FILE_EXTENSION = false →
      ml_single_resolve_nnfw MlNnfwType.ML_NNFW_TYPE_CUSTOM_FILTER m =
        (MLError.ML_ERROR_INVALID_PARAMETER, MlNnfwType.ML_NNFW_TYPE_CUSTOM_FILTER)) ∧
    (g_str_has_suffix (g_ascii_strdown m) (bytes ".tflite") = false →
      ml_single_resolve_nnfw MlNnfwType.ML_NNFW_TYPE_TENSORFLOW_LITE m =
        (MLError.ML_ERROR_INVALID_PARAMETER, MlNnfwType.ML_NNFW_TYPE_TENSORFLOW_LITE)) ∧
    (g_str_has_suffix (g_ascii_strdown m) (bytes ".pb") = false →
      ml_single_resolve_nnfw MlNnfwType.ML_NNFW_TYPE_TENSORFLOW m =
        (MLError.ML_ERROR_INVALID_PARAMETER, MlNnfwType.ML_NNFW_TYPE_TENSORFLOW)) := by
  refine ⟨fun h1 => ?_, fun h2 => ?_, fun h3 => ?_,
    fun hn1 hn2 hn3 => ?_, fun hn => ?_, fun hn => ?_, fun hn => ?_⟩ <;>
    unfold ml_single_resolve_nnfw
  · simp [h1]
  · have hnt : g_str_has_suffix (g_ascii_strdown m) (bytes ".tflite") = false :=
      g_str_has_suffix_disjoint h2 (by decide) (by decide) (by decide)
    simp [h2, hnt]
  · have hnt : g_str_has_suffix (g_ascii_strdown m) (bytes ".tflite") = false :=
      g_str_has_suffix_disjoint h3 (by decide) (by decide) (by decide)
    have hnp : g_str_has_suffix (g_ascii_strdown m) (bytes ".pb") = false :=
      g_str_has_suffix_disjoint h3 (by decide) (by decide) (by decide)
    simp only [NNSTREAMER_SO_FILE_EXTENSION] at h3
    simp [NNSTREAMER_SO_FILE_EXTENSION, h3, hnt, hnp]
  · simp only [NNSTREAMER_SO_FILE_EXTENSION] at hn3
    simp [NNSTREAMER_SO_FILE_EXTENSION, hn1, hn2, hn3]
  · simp only [NNSTREAMER_SO_FILE_EXTENSION] at hn
    simp [NNSTREAMER_SO_FILE_EXTENSION, hn]
  · simp [hn]
  · simp [hn]

/-- Witness for C8: each case of the resolution mapping evaluated at a
concrete model path. -/
theorem claim_C8_framework_resolution_witness :
    ml_single_resolve_nnfw MlNnfwType.ML_NNFW_TYPE_ANY (bytes "m.tflite") =
      (MLError.ML_ERROR_NONE, MlNnfwType.ML_NNFW_TYPE_TENSORFLOW_LITE) ∧
    ml_single_resolve_nnfw MlNnfwType.ML_NNFW_TYPE_ANY (bytes "m.PB") =
      (MLError.ML_ERROR_NONE, MlNnfwType.ML_NNFW_TYPE_TENSORFLOW) ∧
    ml_single_resolve_nnfw MlNnfwType.ML_NNFW_TYPE_ANY (bytes "m.so") =
      (MLError.ML_ERROR_NONE, MlNnfwType.ML_NNFW_TYPE_CUSTOM_FILTER) ∧
    ml_single_resolve_nnfw MlNnfwType.ML_NNFW_TYPE_ANY (bytes "m.caffemodel") =
      (MLError.ML_ERROR_INVALID_PARAMETER, MlNnfwType.ML_NNFW_TYPE_ANY) ∧
    ml_single_resolve_nnfw MlNnfwType.ML_NNFW_TYPE_CUSTOM_FILTER (bytes "m.tflite") =
      (MLError.ML_ERROR_INVALID_PARAMETER, MlNnfwType.ML_NNFW_TYPE_CUSTOM_FILTER) ∧
    ml_single_resolve_nnfw MlNnfwType.ML_NNFW_TYPE_TENSORFLOW_LITE (bytes "m.pb") =
      (MLError.ML_ERROR_INVALID_PARAMETER, MlNnfwType.ML_NNFW_TYPE_TENSORFLOW_LITE) ∧
    ml_single_resolve_nnfw MlNnfwType.ML_NNFW_TYPE_TENSORFLOW (bytes "m.tflite") =
      (MLError.ML_ERROR_INVALID_PARAMETER, MlNnfwType.ML_NNFW_TYPE_TENSORFLOW) :=
  ⟨(claim_C8_framework_resolution (bytes "m.tflite")).1 (by decide),
   (claim_C8_framework_resolution (bytes "m.PB")).2.1 (by decide),
   (claim_C8_framework_resolution (bytes "m.so")).2.2.1 (by decide),
   (claim_C8_framework_resolution (bytes "m.caffemodel")).2.2.2.1
     (by decide) (by decide) (by decide),
   (claim_C8_framework_resolution (bytes "m.tflite")).2.2.2.2.1 (by decide),
   (claim_C8_framework_resolution (bytes "m.pb")).2.2.2.2.2.1 (by decide),
   (claim_C8_framework_resolution (bytes "m.tflite")).2.2.2.2.2.2 (by decide)⟩

/-- **C4.**  For every live handle, if the supplied input data buffer's
tensor count differs from the negotiated input descriptor's count, or any
block is null, or any block's byte length differs from the descriptor
entry's computed byte size, then invoke returns invalid-parameter without
submitting any frame to the graph (empty engine-call trace) and without
changing handle or engine state. -/
theorem claim_C4_invalid_input_rejected (h : MlSingle) (e : EngineState)
    (input : MlTensorsData) (sched : InvokeSched)
    (hm : h.magic = ML_SINGLE_MAGIC)
    (hbad : input.tensors.length ≠ h.in_info.info.length ∨
      ∃ p ∈ input.tensors.zip h.in_info.info,
        p.1.tensor = false ∨ p.1.size ≠ ml_tensor_info_get_size p.2) :
    ml_single_invoke h e input sched =
      ([], some ⟨MLError.ML_ERROR_INVALID_PARAMETER, none, h, e⟩) := by
  unfold ml_single_invoke
  rcases hbad with hcnt | ⟨p, hp, hbadp⟩
  · simp [hm, hcnt]
  · by_cases hcnt : input.tensors.length = h.in_info.info.length
    · have hval : ml_single_input_blocks_valid h.in_info input = false := by
        rw [← Bool.not_eq_true]
        intro hall
        unfold ml_single_input_blocks_valid at hall
        rw [List.all_eq_true] at hall
        have hpall := hall p hp
        simp only [Bool.and_eq_true, beq_iff_eq] at hpall
        rcases hbadp with hnull | hsz
        · rw [hpall.1] at hnull
          exact absurd hnull (by decide)
        · exact hsz hpall.2
      simp [hm, hcnt, hval]
    · simp [hm, hcnt]

/-- Witness for C4: the scenario input one byte short of 28*28*1 is
rejected with invalid-parameter, nothing is submitted, nothing changes. -/
theorem claim_C4_invalid_input_rejected_witness :
    ml_single_invoke exampleHandle ⟨[], none⟩ exampleShortInput ⟨true, true⟩ =
      ([], some ⟨MLError.ML_ERROR_INVALID_PARAMETER, none, exampleHandle, ⟨[], none⟩⟩) :=
  claim_C4_invalid_input_rejected exampleHandle ⟨[], none⟩ exampleShortInput
    ⟨true, true⟩ (by decide)
    (Or.inr (by decide))

/-- **C3.**  For every live handle and every input data buffer compatible
with the negotiated input descriptor (and a consistent stale-flag state:
if the flag is set, the timed-out call's frame is still in the engine),
invoke terminates and either succeeds with an output buffer whose tensor
count and per-block byte sizes equal those computed from the negotiated
output descriptor, or fails with one of the typed errors and produces no
output buffer — never a partial or null success. -/
theorem claim_C3_invoke_success_shape_or_typed_error (h : MlSingle)
    (e : EngineState) (input : MlTensorsData) (sched : InvokeSched)
    (hm : h.magic = ML_SINGLE_MAGIC)
    (hc : input.tensors.length = h.in_info.info.length)
    (hb : ml_single_input_blocks_valid h.in_info input = true)
    (he : h.clear_previous_buffer = true → e.sinkbuf ≠ none ∨ e.inflight ≠ []) :
    ∃ r, (ml_single_invoke h e input sched).2 = some r ∧
      ((r.status = MLError.ML_ERROR_NONE ∧
         ∃ out, r.output = some out ∧
           out.tensors.length = h.out_info.info.length ∧
           ∀ p ∈ out.tensors.zip h.out_info.info,
             p.1.size = ml_tensor_info_get_size p.2 ∧ p.1.tensor = true) ∨
       ((r.status = MLError.ML_ERROR_INVALID_PARAMETER ∨
         r.status = MLError.ML_ERROR_STREAMS_PIPE ∨
         r.status = MLError.ML_ERROR_TIMED_OUT ∨
         r.status = MLError.ML_ERROR_UNKNOWN) ∧ r.output = none)) := by
  have main : ∀ (hh : MlSingle) (e2 : EngineState) (tr : List EngineOp),
      hh.out_info = h.out_info →
      ∃ r, (ml_single_invoke_after_clear hh e2 input sched tr).2 = some r ∧
        ((r.status = MLError.ML_ERROR_NONE ∧
           ∃ out, r.output = some out ∧
             out.tensors.length = h.out_info.info.length ∧
             ∀ p ∈ out.tensors.zip h.out_info.info,
               p.1.size = ml_tensor_info_get_size p.2 ∧ p.1.tensor = true) ∨
         ((r.status = MLError.ML_ERROR_INVALID_PARAMETER ∨
           r.status = MLError.ML_ERROR_STREAMS_PIPE ∨
           r.status = MLError.ML_ERROR_TIMED_OUT ∨
           r.status = MLError.ML_ERROR_UNKNOWN) ∧ r.output = none)) := by
    intro hh e2 tr hoi
    obtain ⟨r, hr, hres⟩ := after_clear_outcomes hh e2 input sched tr
    refine ⟨r, hr, ?_⟩
    rcases hres with ⟨hst, f, hof⟩ | ⟨hst, hof⟩
    · left
      refine ⟨hst, _, hof, ?_, ?_⟩
      · show (ml_tensors_data_create hh.out_info).tensors.length = _
        rw [hoi]
        exact (data_create_blocks h.out_info).1
      · show ∀ p ∈ (ml_tensors_data_create hh.out_info).tensors.zip h.out_info.info, _
        rw [hoi]
        exact (data_create_blocks h.out_info).2
    · right
      rcases hst with hst | hst
      · exact ⟨Or.inr (Or.inl hst), hof⟩
      · exact ⟨Or.inr (Or.inr (Or.inl hst)), hof⟩
  cases hcf : h.clear_previous_buffer
  · unfold ml_single_invoke
    rw [if_neg (by simp [hm]), if_neg (by simp [hc]), if_neg (by simp [hb]),
      if_neg (by simp [hcf])]
    exact main h e [] rfl
  · rcases e with ⟨infl, sb⟩
    cases sb
    · cases infl with
      | nil =>
          rcases he hcf with h1 | h1 <;> simp at h1
      | cons g rest =>
          unfold ml_single_invoke
          rw [if_neg (by simp [hm]), if_neg (by simp [hc]), if_neg (by simp [hb]),
            if_pos hcf]
          exact main _ _ _ rfl
    · unfold ml_single_invoke
      rw [if_neg (by simp [hm]), if_neg (by simp [hc]), if_neg (by simp [hb]),
        if_pos hcf]
      exact main _ _ _ rfl

/-- Witness for C3: a compatible 784-byte input on an idle handle with a
successful schedule yields a success result with a [1,10] float32-sized
output block (40 bytes). -/
theorem claim_C3_invoke_success_shape_or_typed_error_witness :
    ∃ r, (ml_single_invoke exampleHandle ⟨[], none⟩ (exampleInput 1)
        ⟨true, true⟩).2 = some r ∧
      ((r.status = MLError.ML_ERROR_NONE ∧
         ∃ out, r.output = some out ∧
           out.tensors.length = exampleHandle.out_info.info.length ∧
           ∀ p ∈ out.tensors.zip exampleHandle.out_info.info,
             p.1.size = ml_tensor_info_get_size p.2 ∧ p.1.tensor = true) ∨
       ((r.status = MLError.ML_ERROR_INVALID_PARAMETER ∨
         r.status = MLError.ML_ERROR_STREAMS_PIPE ∨
         r.status = MLError.ML_ERROR_TIMED_OUT ∨
         r.status = MLError.ML_ERROR_UNKNOWN) ∧ r.output = none)) :=
  claim_C3_invoke_success_shape_or_typed_error exampleHandle ⟨[], none⟩
    (exampleInput 1) ⟨true, true⟩ (by decide) (by decide) (by decide)
    (by intro hf; exact absurd hf (by decide))

/-- **C1 (counterexample).**  The claim's "the flag is set upon return of
an operation if and only if that operation was an invoke that timed out"
is false on the code: an invoke on a live handle whose flag is already set
(by a previous timeout) that fails input validation returns
invalid-parameter before the cleanup step runs, so it returns with the
flag still set even though it did not time out.  Concrete input: the
flagged scenario handle with its one leftover in-flight frame and the
one-byte-short input buffer. -/
theorem claim_C1_counterexample :
    ml_single_invoke exampleFlaggedHandle ⟨[7], none⟩ exampleShortInput ⟨true, true⟩ =
      ([], some ⟨MLError.ML_ERROR_INVALID_PARAMETER, none,
        exampleFlaggedHandle, ⟨[7], none⟩⟩) ∧
    InvokeInv exampleFlaggedHandle ⟨[7], none⟩ ∧
    exampleFlaggedHandle.clear_previous_buffer = true ∧
    MLError.ML_ERROR_INVALID_PARAMETER ≠ MLError.ML_ERROR_TIMED_OUT := by
  refine ⟨by decide, ?_, by decide, by decide⟩
  unfold InvokeInv
  decide

/-- **C1 (amended).**  Timeout self-healing across consecutive invoke
calls: (1) whenever invoke fails to obtain an output frame within the
configured timeout, it sets the 'prior result unclaimed' flag and returns
the timed-out error with no output buffer; (2) the flag is set upon return
of an invoke if and only if that invoke timed out OR the flag was already
set and the invoke rejected its input before the cleanup step (the one
amendment the code forces); (3) under the protocol invariant, the
immediately following invoke on that handle never returns the stale frame
produced by the timed-out call — any output it returns carries its own
input's provenance tag. -/
theorem claim_C1_amended_timeout_selfhealing :
    (∀ (h : MlSingle) (e : EngineState) (input : MlTensorsData)
        (sched : InvokeSched) (tr : List EngineOp) (r : InvokeResult),
        ml_single_invoke h e input sched = (tr, some r) →
        r.status = MLError.ML_ERROR_TIMED_OUT →
        r.handle.clear_previous_buffer = true ∧ r.output = none) ∧
    (∀ (h : MlSingle) (e : EngineState) (input : MlTensorsData)
        (sched : InvokeSched) (tr : List EngineOp) (r : InvokeResult),
        ml_single_invoke h e input sched = (tr, some r) →
        (r.handle.clear_previous_buffer = true ↔
          (r.status = MLError.ML_ERROR_TIMED_OUT ∨
           (h.clear_previous_buffer = true ∧
            r.status = MLError.ML_ERROR_INVALID_PARAMETER)))) ∧
    (∀ (h : MlSingle) (e : EngineState) (in1 : MlTensorsData)
        (s1 : InvokeSched) (tr1 : List EngineOp) (r1 : InvokeResult),
        InvokeInv h e →
        ml_single_invoke h e in1 s1 = (tr1, some r1) →
        r1.status = MLError.ML_ERROR_TIMED_OUT →
        ∀ (n : Nat) (in2 : MlTensorsData) (s2 : InvokeSched)
          (tr2 : List EngineOp) (r2 : InvokeResult) (out : MlTensorsData),
          ml_single_invoke r1.handle (engineSettle r1.engine n) in2 s2 =
            (tr2, some r2) →
          r2.output = some out → out.tag = in2.tag) := by
  refine ⟨?_, ?_, ?_⟩
  · intro h e input sched tr r heq hst
    simp only [ml_single_invoke, ml_single_invoke_after_clear] at heq
    repeat' split at heq
    all_goals
      first
        | (injection heq with h1 h2
           injection h2 with h3
           subst h3
           simp_all)
        | (injection heq with h1 h2
           simp at h2)
  · intro h e input sched tr r heq
    simp only [ml_single_invoke, ml_single_invoke_after_clear] at heq
    repeat' split at heq
    all_goals
      first
        | (injection heq with h1 h2
           injection h2 with h3
           subst h3
           simp_all)
        | (injection heq with h1 h2
           simp at h2)
  · intro h e in1 s1 tr1 r1 hinv heq hst n in2 s2 tr2 r2 out heq2 hout2
    have hinv1 : InvokeInv r1.handle r1.engine := by
      by_cases hm : h.magic = ML_SINGLE_MAGIC
      · by_cases hc : in1.tensors.length = h.in_info.info.length
        · by_cases hb : ml_single_input_blocks_valid h.in_info in1 = true
          · rw [invoke_valid_under_inv h e in1 s1 hm hc hb hinv,
              after_clear_empty] at heq
            split at heq
            · injection heq with h1 h2
              injection h2 with h3
              subst h3
              simp at hst
            · split at heq
              · injection heq with h1 h2
                injection h2 with h3
                subst h3
                simp at hst
              · injection heq with h1 h2
                injection h2 with h3
                subst h3
                unfold InvokeInv engineFrames
                simp
          · rw [Bool.not_eq_true] at hb
            unfold ml_single_invoke at heq
            simp [hm, hc, hb] at heq
            obtain ⟨h1, h2⟩ := heq
            subst h2
            simp at hst
        · unfold ml_single_invoke at heq
          simp [hm, hc] at heq
          obtain ⟨h1, h2⟩ := heq
          subst h2
          simp at hst
      · unfold ml_single_invoke at heq
        simp [hm] at heq
        obtain ⟨h1, h2⟩ := heq
        subst h2
        simp at hst
    exact invoke_fresh_output r1.handle (engineSettle r1.engine n) in2 s2 tr2 r2
      out (settle_preserves_inv r1.handle r1.engine n hinv1) heq2 hout2

/-- Witness for the amended C1, on a concrete two-call run: invoke of
input 1 on the idle scenario handle times out leaving the flag set and no
output; the next invoke (after the stale frame settles into the appsink)
returns an output tagged with its own input's tag (2). -/
theorem claim_C1_amended_timeout_selfhealing_witness :
    (exampleTimedOutResult.handle.clear_previous_buffer = true ∧
      exampleTimedOutResult.output = none) ∧
    (exampleTimedOutResult.handle.clear_previous_buffer = true ↔
      (exampleTimedOutResult.status = MLError.ML_ERROR_TIMED_OUT ∨
       (exampleHandle.clear_previous_buffer = true ∧
        exampleTimedOutResult.status = MLError.ML_ERROR_INVALID_PARAMETER))) ∧
    (⟨[⟨true, 40⟩], 2⟩ : MlTensorsData).tag = (exampleInput 2).tag :=
  ⟨claim_C1_amended_timeout_selfhealing.1 exampleHandle ⟨[], none⟩
      (exampleInput 1) ⟨true, false⟩
      [EngineOp.pushBuffer 1, EngineOp.tryPullSample 3000000000]
      exampleTimedOutResult (by decide) (by decide),
   claim_C1_amended_timeout_selfhealing.2.1 exampleHandle ⟨[], none⟩
      (exampleInput 1) ⟨true, false⟩
      [EngineOp.pushBuffer 1, EngineOp.tryPullSample 3000000000]
      exampleTimedOutResult (by decide),
   claim_C1_amended_timeout_selfhealing.2.2 exampleHandle ⟨[], none⟩
      (exampleInput 1) ⟨true, false⟩
      [EngineOp.pushBuffer 1, EngineOp.tryPullSample 3000000000]
      exampleTimedOutResult (by unfold InvokeInv; decide) (by decide) (by decide)
      1 (exampleInput 2) ⟨true, true⟩
      [EngineOp.pullSample, EngineOp.pushBuffer 2, EngineOp.tryPullSample 3000000000]
      ⟨MLError.ML_ERROR_NONE, some ⟨[⟨true, 40⟩], 2⟩, exampleHandle, ⟨[], none⟩⟩
      ⟨[⟨true, 40⟩], 2⟩ (by decide) (by decide)⟩

/-- **C2 (counterexample).**  The claim says the cleanup step is a
NON-BLOCKING drain (`tryDrainFrame` returning immediately with a buffered
frame or 'empty') and that invoke never performs an unbounded blocking
wait during cleanup.  The code calls the blocking
`gst_app_sink_pull_sample` instead: on the flagged scenario handle the
first recorded engine call of invoke is `pullSample` (the unbounded
blocking pull, not a bounded try-pull), and when no frame is buffered or
in flight the call never returns at all (result `none`), which a
non-blocking drain would make impossible. -/
theorem claim_C2_counterexample :
    (ml_single_invoke exampleFlaggedHandle ⟨[], some 7⟩ (exampleInput 1)
        ⟨true, true⟩).1 =
      [EngineOp.pullSample, EngineOp.pushBuffer 1,
       EngineOp.tryPullSample 3000000000] ∧
    ml_single_invoke exampleFlaggedHandle ⟨[], none⟩ (exampleInput 1)
        ⟨true, true⟩ =
      ([EngineOp.pullSample], none) := by
  exact ⟨by decide, by decide⟩

/-- **C2 (amended).**  For every invoke on a live handle whose 'prior
result unclaimed' flag is set and whose input passes validation: the
cleanup step performs a BLOCKING pull of the output stage
(`gst_app_sink_pull_sample`); under the protocol invariant (the timed-out
call's one frame still buffered or in flight) it consumes and discards
that frame and clears the flag, all before the new input is pushed, so
the call continues exactly as a clean-flag invoke on an empty engine; but
when no frame is buffered or in flight the cleanup blocks without bound
(invoke never returns). -/
theorem claim_C2_amended_blocking_drain :
    (∀ (h : MlSingle) (e : EngineState) (input : MlTensorsData)
        (sched : InvokeSched),
        h.magic = ML_SINGLE_MAGIC →
        h.clear_previous_buffer = true →
        input.tensors.length = h.in_info.info.length →
        ml_single_input_blocks_valid h.in_info input = true →
        InvokeInv h e →
        ml_single_invoke h e input sched =
          ml_single_invoke_after_clear
            { h with clear_previous_buffer := false } ⟨[], none⟩ input sched
            [EngineOp.pullSample]) ∧
    (∀ (h : MlSingle) (input : MlTensorsData) (sched : InvokeSched),
        h.magic = ML_SINGLE_MAGIC →
        h.clear_previous_buffer = true →
        input.tensors.length = h.in_info.info.length →
        ml_single_input_blocks_valid h.in_info input = true →
        ml_single_invoke h ⟨[], none⟩ input sched =
          ([EngineOp.pullSample], none)) := by
  constructor
  · intro h e input sched hm hf hc hb hinv
    rw [invoke_valid_under_inv h e input sched hm hc hb hinv, hf]
    simp
  · intro h input sched hm hf hc hb
    unfold ml_single_invoke
    rw [if_neg (by simp [hm]), if_neg (by simp [hc]), if_neg (by simp [hb]),
      if_pos hf]

/-- Witness for the amended C2: on the flagged scenario handle with the
stale frame buffered at the appsink, invoke reduces to the clean
continuation after one blocking pull; with an empty engine it blocks
forever after that pull. -/
theorem claim_C2_amended_blocking_drain_witness :
    ml_single_invoke exampleFlaggedHandle ⟨[], some 7⟩ (exampleInput 1)
        ⟨true, true⟩ =
      ml_single_invoke_after_clear
        { exampleFlaggedHandle with clear_previous_buffer := false }
        ⟨[], none⟩ (exampleInput 1) ⟨true, true⟩ [EngineOp.pullSample] ∧
    ml_single_invoke exampleFlaggedHandle ⟨[], none⟩ (exampleInput 1)
        ⟨true, true⟩ =
      ([EngineOp.pullSample], none) :=
  ⟨claim_C2_amended_blocking_drain.1 exampleFlaggedHandle ⟨[], some 7⟩
      (exampleInput 1) ⟨true, true⟩ (by decide) (by decide) (by decide)
      (by decide) (by unfold InvokeInv; decide),
   claim_C2_amended_blocking_drain.2 exampleFlaggedHandle (exampleInput 1)
      ⟨true, true⟩ (by decide) (by decide) (by decide) (by decide)⟩

/-- The construction phase of open is atomic on failure: non-success
status means no handle and a balanced resource ledger. -/
theorem construct_atomic_on_failure (ii oi : Option MlTensorsInfo)
    (nnfw : MlNnfwType) (env : OpenEnv)
    (st : MLError) (out : Option MlSingle) (led : Ledger) (ops : List OpenOp)
    (heq : ml_single_open_construct ii oi nnfw env = (st, out, led, ops))
    (hst : st ≠ MLError.ML_ERROR_NONE) :
    out = none ∧
    led.pipelines_constructed = led.pipelines_destroyed ∧
    led.stage_refs_taken = led.stage_refs_released ∧
    led.handles_allocated = led.handles_freed := by
  simp only [ml_single_open_construct] at heq
  repeat' split at heq
  all_goals
    (injection heq with h1 h2
     injection h2 with h3 h4
     injection h4 with h5 h6
     subst h1
     subst h3
     subst h5
     simp_all [emptyLedger, ledgerAfterClose, ledgerOpenSuccess])

/-- **C5.**  open is atomic on failure: whenever open returns a
non-success status, the caller's handle out-parameter is left null and
every partially built resource is torn down (the resource ledger is
balanced: pipelines constructed = destroyed, stage references taken =
released, handles allocated = freed — as if close had been called). -/
theorem claim_C5_open_atomic_on_failure (model : Option (List Nat))
    (ii oi : Option MlTensorsInfo) (nnfw : MlNnfwType) (env : OpenEnv)
    (st : MLError) (out : Option MlSingle) (led : Ledger) (ops : List OpenOp)
    (heq : ml_single_open model ii oi nnfw env = (st, out, led, ops))
    (hst : st ≠ MLError.ML_ERROR_NONE) :
    out = none ∧
    led.pipelines_constructed = led.pipelines_destroyed ∧
    led.stage_refs_taken = led.stage_refs_released ∧
    led.handles_allocated = led.handles_freed := by
  simp only [ml_single_open] at heq
  repeat' split at heq
  all_goals
    first
      | exact construct_atomic_on_failure _ _ _ _ _ _ _ _ heq hst
      | (injection heq with h1 h2
         injection h2 with h3 h4
         injection h4 with h5 h6
         subst h1
         subst h3
         subst h5
         simp_all [emptyLedger, ledgerAfterClose, ledgerOpenSuccess])

/-- Witness for C5: an open whose pipeline starts to build but whose
start transition fails tears everything down, returns no handle, and the
ledger is balanced. -/
theorem claim_C5_open_atomic_on_failure_witness :
    (none : Option MlSingle) = none ∧
    ledgerAfterClose.pipelines_constructed = ledgerAfterClose.pipelines_destroyed ∧
    ledgerAfterClose.stage_refs_taken = ledgerAfterClose.stage_refs_released ∧
    ledgerAfterClose.handles_allocated = ledgerAfterClose.handles_freed :=
  claim_C5_open_atomic_on_failure (some (bytes "m.tflite")) (some exampleInInfo)
    (some exampleOutInfo) MlNnfwType.ML_NNFW_TYPE_TENSORFLOW_LITE exampleFailEnv
    MLError.ML_ERROR_STREAMS_PIPE none ledgerAfterClose
    [OpenOp.constructPipeline MlNnfwType.ML_NNFW_TYPE_TENSORFLOW_LITE,
     OpenOp.startPipeline]
    (by decide) (by decide)

/-- **C6 (counterexample).**  The claim says describe returns the
negotiated descriptor captured at open time ("exactly the descriptor that
was supplied, not a re-derived one").  The code re-queries the filter
element's self-reported properties on every call: the scenario open with
the explicit {uint8,[1,28,28,1]} input descriptor succeeds and caches
that descriptor in the handle, yet describe(input) returns the filter's
self-reported descriptor, which differs from the supplied one. -/
theorem claim_C6_counterexample :
    exampleOpen.1 = MLError.ML_ERROR_NONE ∧
    exampleOpen.2.1 = some exampleHandle ∧
    exampleHandle.in_info = exampleInInfo ∧
    ml_single_get_input_info exampleHandle =
      (MLError.ML_ERROR_NONE, some exampleReportedInInfo) ∧
    exampleReportedInInfo ≠ exampleInInfo := by
  exact ⟨by decide, by decide, by decide, by decide, by decide⟩

/-- **C6 (amended).**  For every live handle, describe re-queries the
inference stage: it returns (freshly parsed) the filter element's
currently self-reported descriptor for the requested direction, not the
descriptor captured at open time; the two coincide exactly when the stage
reports the captured descriptor. -/
theorem claim_C6_amended_describe_requeries (h : MlSingle) (is_input : Bool)
    (hm : h.magic = ML_SINGLE_MAGIC) :
    ml_single_get_tensors_info h is_input =
      (MLError.ML_ERROR_NONE,
       some (ml_single_get_tensors_info_from_filter h.filter is_input)) := by
  unfold ml_single_get_tensors_info
  simp [hm]

/-- Witness for the amended C6: describe(input) on the scenario handle
returns the filter's reported input descriptor. -/
theorem claim_C6_amended_describe_requeries_witness :
    ml_single_get_tensors_info exampleHandle true =
      (MLError.ML_ERROR_NONE,
       some (ml_single_get_tensors_info_from_filter exampleHandle.filter true)) :=
  claim_C6_amended_describe_requeries exampleHandle true (by decide)

/-- Every handle the construction phase of open hands back starts with
the default 3000 ms timeout. -/
theorem construct_timeout_default (ii oi : Option MlTensorsInfo)
    (nnfw : MlNnfwType) (env : OpenEnv)
    (st : MLError) (out : Option MlSingle) (led : Ledger) (ops : List OpenOp)
    (h : MlSingle)
    (heq : ml_single_open_construct ii oi nnfw env = (st, out, led, ops))
    (hout : out = some h) : h.timeout = 3000 := by
  rcases ii with _ | i1 <;> rcases oi with _ | i2 <;>
    simp only [ml_single_open_construct] at heq <;>
    repeat' split at heq
  all_goals
    (injection heq with h1 h2
     injection h2 with h3 h4
     subst h3
     first
       | (rw [Option.some.injEq] at hout
          subst hout
          simp [SINGLE_DEFAULT_TIMEOUT])
       | simp at hout)

/-- **C7.**  The timeout configuration protocol: a handle created by open
has timeout 3000 ms; setTimeout(handle, 0) returns invalid-parameter and
leaves the handle unchanged; setTimeout(handle, d) for d > 0 on a live
handle succeeds and replaces the configured timeout with d, and every
bounded wait performed by a subsequent invoke on the updated handle uses
d (in nanoseconds).  Operations on one handle serialize on the per-handle
lock, so an invoke already in progress is unaffected by construction. -/
theorem claim_C7_timeout_protocol :
    (∀ (model : Option (List Nat)) (ii oi : Option MlTensorsInfo)
        (nnfw : MlNnfwType) (env : OpenEnv) (st : MLError)
        (out : Option MlSingle) (led : Ledger) (ops : List OpenOp)
        (h : MlSingle),
        ml_single_open model ii oi nnfw env = (st, out, led, ops) →
        out = some h → h.timeout = 3000) ∧
    (∀ h : MlSingle, ml_single_set_timeout h 0 =
        (MLError.ML_ERROR_INVALID_PARAMETER, h)) ∧
    (∀ (h : MlSingle) (d : Nat), 0 < d → h.magic = ML_SINGLE_MAGIC →
        ml_single_set_timeout h d =
          (MLError.ML_ERROR_NONE, { h with timeout := d }) ∧
        ∀ (e : EngineState) (input : MlTensorsData) (sched : InvokeSched)
          (t : Nat),
          EngineOp.tryPullSample t ∈
            (ml_single_invoke { h with timeout := d } e input sched).1 →
          t = GST_MSECOND * d) := by
  refine ⟨?_, ?_, ?_⟩
  · intro model ii oi nnfw env st out led ops h heq hout
    simp only [ml_single_open] at heq
    repeat' split at heq
    all_goals
      first
        | exact construct_timeout_default _ _ _ _ _ _ _ _ _ heq hout
        | (injection heq with h1 h2
           injection h2 with h3 h4
           subst h3
           simp at hout)
  · intro h
    unfold ml_single_set_timeout
    simp
  · intro h d hd hm
    constructor
    · unfold ml_single_set_timeout
      rw [if_neg (by omega), if_neg (by simp [hm])]
    · intro e input sched t hmem
      exact invoke_tryPull_timeout { h with timeout := d } e input sched t hmem

/-- Witness for C7: the scenario open yields a 3000 ms handle;
setTimeout 0 is rejected without change; setTimeout 5000 succeeds and the
next invoke's bounded wait is 5000 ms (5*10^9 ns). -/
theorem claim_C7_timeout_protocol_witness :
    exampleHandle.timeout = 3000 ∧
    ml_single_set_timeout exampleHandle 0 =
      (MLError.ML_ERROR_INVALID_PARAMETER, exampleHandle) ∧
    ml_single_set_timeout exampleHandle 5000 =
      (MLError.ML_ERROR_NONE, { exampleHandle with timeout := 5000 }) ∧
    5000000000 = GST_MSECOND * 5000 :=
  ⟨claim_C7_timeout_protocol.1 (some (bytes "m.tflite")) (some exampleInInfo)
      (some exampleOutInfo) MlNnfwType.ML_NNFW_TYPE_TENSORFLOW_LITE exampleEnv
      MLError.ML_ERROR_NONE (some exampleHandle) ledgerOpenSuccess
      [OpenOp.constructPipeline MlNnfwType.ML_NNFW_TYPE_TENSORFLOW_LITE,
       OpenOp.startPipeline]
      exampleHandle (by decide) rfl,
   claim_C7_timeout_protocol.2.1 exampleHandle,
   (claim_C7_timeout_protocol.2.2 exampleHandle 5000 (by decide) (by decide)).1,
   (claim_C7_timeout_protocol.2.2 exampleHandle 5000 (by decide) (by decide)).2
     ⟨[], none⟩ (exampleInput 1) ⟨true, true⟩ 5000000000 (by decide)⟩

/-- **C9.**  For every open call that resolves to the tensorflow backend
(whose '.pb' artifact cannot be introspected), if the caller did not
supply both an input and an output descriptor, open fails with an error
before any graph is instantiated (no construct operation is performed)
and no handle is created. -/
theorem claim_C9_tensorflow_requires_both_infos (m : List Nat)
    (ii oi : Option MlTensorsInfo) (nnfw : MlNnfwType) (env : OpenEnv)
    (hres : ml_single_resolve_nnfw nnfw m =
      (MLError.ML_ERROR_NONE, MlNnfwType.ML_NNFW_TYPE_TENSORFLOW))
    (hmiss : ii = none ∨ oi = none) :
    (ml_single_open (some m) ii oi nnfw env).1 ≠ MLError.ML_ERROR_NONE ∧
    (ml_single_open (some m) ii oi nnfw env).2.1 = none ∧
    ∀ fw, OpenOp.constructPipeline fw ∉
      (ml_single_open (some m) ii oi nnfw env).2.2.2 := by
  rcases hx : ml_single_open (some m) ii oi nnfw env with ⟨st, out, led, ops⟩
  dsimp only
  simp only [ml_single_open] at hx
  rw [hres] at hx
  dsimp only at hx
  rcases hmiss with h1 | h1 <;> subst h1 <;> repeat' split at hx
  all_goals
    first
      | (injection hx with a1 a2
         injection a2 with a3 a4
         injection a4 with a5 a6
         subst a1
         subst a3
         subst a6
         refine ⟨?_, rfl, ?_⟩ <;> simp_all)
      | simp_all

/-- Witness for C9: opening a '.pb' model with no input descriptor fails
with invalid-parameter before any pipeline is constructed. -/
theorem claim_C9_tensorflow_requires_both_infos_witness :
    (ml_single_open (some (bytes "m.pb")) none (some exampleOutInfo)
        MlNnfwType.ML_NNFW_TYPE_ANY exampleEnv).1 ≠ MLError.ML_ERROR_NONE ∧
    (ml_single_open (some (bytes "m.pb")) none (some exampleOutInfo)
        MlNnfwType.ML_NNFW_TYPE_ANY exampleEnv).2.1 = none ∧
    ∀ fw, OpenOp.constructPipeline fw ∉
      (ml_single_open (some (bytes "m.pb")) none (some exampleOutInfo)
        MlNnfwType.ML_NNFW_TYPE_ANY exampleEnv).2.2.2 :=
  claim_C9_tensorflow_requires_both_infos (bytes "m.pb") none
    (some exampleOutInfo) MlNnfwType.ML_NNFW_TYPE_ANY exampleEnv
    (by decide) (Or.inl rfl)

end NNStreamer
